import Mathlib

/-!
Shallow embedding of the Retention Guard risk-scoring pipeline
(`src/retention_guard/data.py`, `model.py`, `pipeline.py`).

Numeric values that the Python code handles as floats are embedded as
rationals (`ℚ`); machine-float representation issues are out of scope.
Library calls (sklearn's `OneHotEncoder(handle_unknown="ignore")`,
`RandomForestClassifier.predict_proba`, numpy's `ndarray.round`) are
embedded by their documented semantics, which the surrounding repository
code relies on.
-/

namespace RetentionGuard

/-- `REQUIRED_COLUMNS` from `data.py`: the twelve required field names,
in declared order. -/
def REQUIRED_COLUMNS : List String :=
  ["employee_id", "dept", "tenure_months", "last_promotion_months",
   "salary_band", "manager_span", "overtime_hours_month", "engagement_score",
   "absenteeism_days_month", "peer_turnover_rate", "performance_score",
   "internal_mobility"]

/-- One employee observation: the twelve required fields of the Feature
Contract, with numeric fields as rationals and categorical fields as
strings. -/
structure Record where
  employee_id : String
  dept : String
  tenure_months : ℚ
  last_promotion_months : ℚ
  salary_band : String
  manager_span : ℚ
  overtime_hours_month : ℚ
  engagement_score : ℚ
  absenteeism_days_month : ℚ
  peer_turnover_rate : ℚ
  performance_score : ℚ
  internal_mobility : ℚ
deriving DecidableEq

/-- A record collection as the pipeline sees it: the parsed rows plus the
optional `exit_flag` label column (`some` exactly when the column
`exit_flag` is present in the frame). -/
structure DataFrame where
  rows : List Record
  exit_flag : Option (List ℤ)
deriving DecidableEq

/-- `_infer_risk_band` from `pipeline.py`: `>= 0.7` is High, else
`>= 0.4` is Medium, else Low. -/
def infer_risk_band (score_value : ℚ) : String :=
  if score_value ≥ 0.7 then "High"
  else if score_value ≥ 0.4 then "Medium"
  else "Low"

/-- The four-signal heuristic counter from `_prepare_training_data`
(`pipeline.py` lines 36-41), evaluated on one record: each comparison
contributes 1 when it holds. -/
def synth_heuristic (r : Record) : ℤ :=
  (if r.engagement_score < 60 then 1 else 0)
  + (if r.overtime_hours_month > 12 then 1 else 0)
  + (if r.absenteeism_days_month > 3 then 1 else 0)
  + (if r.last_promotion_months > 36 then 1 else 0)

/-- The synthesized `exit_flag` value for one record:
`(heuristic >= 2).astype(int)` from `_prepare_training_data`. -/
def synth_label (r : Record) : ℤ :=
  if synth_heuristic r ≥ 2 then 1 else 0

/-- `_prepare_training_data` from `pipeline.py`: if the frame already has
an `exit_flag` column it is returned unchanged; otherwise a copy of the
frame with the synthesized label column attached is returned (the
argument itself is not modified — `df.copy()` in the source). -/
def prepare_training_data (df : DataFrame) : DataFrame :=
  match df.exit_flag with
  | some _ => df
  | none => { rows := df.rows, exit_flag := some (df.rows.map synth_label) }

/-- Lexicographic comparison of strings as lists of code points; this is
the order numpy uses when `OneHotEncoder` sorts the distinct levels of a
categorical column during `fit`. -/
def lexLe : List Char → List Char → Bool
  | [], _ => true
  | _ :: _, [] => false
  | a :: as, b :: bs => if a = b then lexLe as bs else decide (a < b)

/-- String comparison used to sort categorical vocabularies. -/
def strLe (a b : String) : Bool :=
  lexLe a.data b.data

/-- Model of the `fit` step of sklearn's
`OneHotEncoder(handle_unknown="ignore")` as configured in
`_build_pipeline` (`model.py`): the vocabulary of one categorical column
is the sorted list of distinct levels observed in the training data. -/
def oneHotFit (vals : List String) : List String :=
  (vals.insertionSort (fun a b => strLe a b)).dedup

/-- Model of the `transform` step of sklearn's
`OneHotEncoder(handle_unknown="ignore")`: one indicator column per
fitted level, in vocabulary order. The function is total: a level
outside the vocabulary raises no error and adds no column — every
indicator is simply 0. -/
def oneHotTransform (cats : List String) (v : String) : List ℚ :=
  cats.map (fun c => if v = c then 1 else 0)

/-- The categorical feature list hardcoded in `train_model`
(`model.py` line 54). -/
def cat_features : List String := ["dept", "salary_band"]

/-- `num_features` as computed in `train_model` (`model.py` line 55) on a
validated frame, where `features = REQUIRED_COLUMNS`: every required
column that is neither categorical nor `employee_id`, in declared
order. -/
def num_features : List String :=
  REQUIRED_COLUMNS.filter
    (fun c => !(cat_features.contains c) && c != "employee_id")

/-- The fitted encoder configuration owned by a trained pipeline: the
per-numeric-column centers and scales of the `StandardScaler` and the
fitted vocabulary of each categorical column. The numeric parameters are
carried abstractly (sklearn's scale is a square root, which need not be
rational); no claim constrains their values. -/
structure EncoderState where
  numMeans : List ℚ
  numStds : List ℚ
  deptCats : List String
  salaryCats : List String

/-- The numeric feature values of one record, in `num_features` order. -/
def numericVector (r : Record) : List ℚ :=
  [r.tenure_months, r.last_promotion_months, r.manager_span,
   r.overtime_hours_month, r.engagement_score, r.absenteeism_days_month,
   r.peer_turnover_rate, r.performance_score, r.internal_mobility]

/-- The encoded row of one record under a fitted encoder: scaled numeric
columns in declared order followed by the one-hot expansion of `dept`
and then of `salary_band`, exactly the `ColumnTransformer` layout of
`_build_pipeline`. -/
def encTransform (enc : EncoderState) (r : Record) : List ℚ :=
  (List.zipWith (fun x (ms : ℚ × ℚ) => (x - ms.1) / (if ms.2 = 0 then 1 else ms.2))
    (numericVector r) (enc.numMeans.zip enc.numStds))
  ++ oneHotTransform enc.deptCats r.dept
  ++ oneHotTransform enc.salaryCats r.salary_band

/-- A trained model as one inseparable unit: the fitted encoder state
plus the fitted classifier, the latter embedded as the deterministic
function from an encoded row to the predicted probability that the
fitted `RandomForestClassifier.predict_proba` realizes (prediction after
`fit` involves no randomness). -/
structure ModelState where
  enc : EncoderState
  predict : List ℚ → ℚ

/-- `score` from `model.py`: run every row of the frame through the
trained pipeline (encode with the fitted encoder, then take the
predicted probability of the positive class). -/
def score (model : ModelState) (df : DataFrame) : List ℚ :=
  df.rows.map (fun r => model.predict (encTransform model.enc r))

/-- `get_feature_names_out` of the fitted `OneHotEncoder`: one name
`feature_level` per fitted level of each categorical feature, `dept`
columns first, then `salary_band`. -/
def cat_names_of (deptCats salaryCats : List String) : List String :=
  deptCats.map (fun c => "dept_" ++ c)
  ++ salaryCats.map (fun c => "salary_band_" ++ c)

/-- The descending-weight comparison used by
`sorted(..., key=lambda x: x[1], reverse=True)` in
`_extract_feature_importance`. -/
def impRel (a b : String × ℚ) : Prop := b.2 ≤ a.2

instance : DecidableRel impRel :=
  fun a b => inferInstanceAs (Decidable (b.2 ≤ a.2))

instance : IsTotal (String × ℚ) impRel :=
  ⟨fun a b => le_total b.2 a.2⟩

instance : IsTrans (String × ℚ) impRel :=
  ⟨fun _ _ _ h1 h2 => le_trans h2 h1⟩

/-- `impRel` lifted to index-decorated pairs (the index plays no role in
the comparison). -/
def impRelIdx (a b : ℕ × String × ℚ) : Prop := impRel a.2 b.2

instance : DecidableRel impRelIdx :=
  fun a b => inferInstanceAs (Decidable (b.2.2 ≤ a.2.2))

instance : IsTotal (ℕ × String × ℚ) impRelIdx :=
  ⟨fun a b => le_total b.2.2 a.2.2⟩

instance : IsTrans (ℕ × String × ℚ) impRelIdx :=
  ⟨fun _ _ _ h1 h2 => le_trans h2 h1⟩

/-- `_extract_feature_importance` from `model.py`: pair the encoded
column names (`num_features ++ cat_names`) with the classifier's
per-column weights, sort by descending weight (Python's `sorted` is
stable, and Mathlib's `insertionSort` with this comparison places
earlier elements before equal-weight later ones, which is the same
order), and keep the first 8 pairs. The resulting association list, in
order, is the Python dict built from `pairs[:8]` (the encoded column
names are distinct in a real run, so the dict keeps all 8 pairs in
insertion order). -/
def extract_feature_importance (cat_names : List String)
    (importances : List ℚ) : List (String × ℚ) :=
  (((num_features ++ cat_names).zip importances).insertionSort impRel).take 8

/-- The same computation on index-decorated pairs: each pair carries its
position in the encoded-column list so that the stable-sort tie order
can be stated. -/
def extract_fi_enum (cat_names : List String)
    (importances : List ℚ) : List (ℕ × String × ℚ) :=
  (((num_features ++ cat_names).zip importances).enum.insertionSort impRelIdx).take 8

/-- Boolean check that `p` is an initial segment of `l`. -/
def isPrefixB : List Char → List Char → Bool
  | [], _ => true
  | _ :: _, [] => false
  | a :: as, b :: bs => a = b && isPrefixB as bs

/-- Structural helper for Python's `str.replace(pat, "")` with a
nonempty pattern: scan left to right, dropping each non-overlapping
occurrence of `pat`. The fuel argument starts at the length of the text
and strictly dominates it, so the recursion is structural. -/
def stripTokenAux (pat : List Char) : ℕ → List Char → List Char
  | 0, s => s
  | _ + 1, [] => []
  | fuel + 1, c :: rest =>
    if isPrefixB pat (c :: rest) then
      stripTokenAux pat fuel (rest.drop (pat.length - 1))
    else
      c :: stripTokenAux pat fuel rest

/-- Python's `s.replace(pat, "")`: remove every occurrence of `pat`
from `s`. -/
def replaceEmpty (s pat : String) : String :=
  String.mk (stripTokenAux pat.data s.data.length s.data)

/-- `_top_driver_summary` from `pipeline.py`: on an empty table return
"insufficient data"; otherwise take Python's `max(importances,
key=importances.get)` — the first key of maximal weight in iteration
order — and strip the substrings "cat__" and "num__" from it. -/
def top_driver_summary (importances : List (String × ℚ)) : String :=
  match importances with
  | [] => "insufficient data"
  | p :: rest =>
    replaceEmpty
      (replaceEmpty
        (rest.foldl (fun acc q => if acc.2 < q.2 then q else acc) p).1
        "cat__")
      "num__"

/-- A key is clean when it contains neither of the substrings that
`_top_driver_summary` strips; every name the pipeline actually builds
from sane level strings is clean. -/
def cleanKey (s : String) : Prop :=
  ¬ ("cat__".data <:+: s.data) ∧ ¬ ("num__".data <:+: s.data)

/-- numpy's `ndarray.round` applied to a scalar: round half to even
(banker's rounding) at the integer scale. -/
def roundHalfEven (x : ℚ) : ℤ :=
  if x - ⌊x⌋ < 1/2 then ⌊x⌋
  else if 1/2 < x - ⌊x⌋ then ⌊x⌋ + 1
  else if ⌊x⌋ % 2 = 0 then ⌊x⌋ else ⌊x⌋ + 1

/-- `risk_scores.round(3)` from `run_pipeline` on one score: numpy's
half-to-even rounding to 3 decimals. -/
def round3 (q : ℚ) : ℚ :=
  (roundHalfEven (1000 * q) : ℚ) / 1000

/-- `ModelResult` from `model.py`: the trained pipeline, its training-set
AUC, and the Feature Importance Table. -/
structure ModelResult where
  model : ModelState
  auc : ℚ
  feature_importance : List (String × ℚ)

/-- A raw CSV as `load_csv` sees it: the header column names plus the
parsed frame that results when every required column is present. -/
structure RawFrame where
  cols : List String
  frame : DataFrame

/-- Python's `", ".join(missing)`. -/
def joinComma : List String → String
  | [] => ""
  | [s] => s
  | s :: rest => s ++ ", " ++ joinComma rest

/-- The `ValueError` message raised by `load_csv` when columns are
missing. -/
def missing_message (missing : List String) : String :=
  "Missing required columns: " ++ joinComma missing

/-- `missing = [col for col in REQUIRED_COLUMNS if col not in df.columns]`
from `load_csv`: every required column absent from the header, in
declared order. -/
def missing_columns (raw : RawFrame) : List String :=
  REQUIRED_COLUMNS.filter (fun c => !(raw.cols.contains c))

/-- `load_csv` from `data.py`: fail with the full missing-column list
when it is nonempty, otherwise hand the frame on. -/
def load_csv (raw : RawFrame) : Except (List String) DataFrame :=
  if (missing_columns raw).isEmpty then Except.ok raw.frame
  else Except.error (missing_columns raw)

/-- One row of the output CSV written by `run_pipeline`: the ten
`output_columns` copied from the input record (note: `salary_band` and
`manager_span` are not among them) plus the three derived fields. -/
structure OutputRow where
  employee_id : String
  dept : String
  tenure_months : ℚ
  last_promotion_months : ℚ
  engagement_score : ℚ
  overtime_hours_month : ℚ
  absenteeism_days_month : ℚ
  performance_score : ℚ
  peer_turnover_rate : ℚ
  internal_mobility : ℚ
  risk_score : ℚ
  risk_band : String
  top_driver : String

/-- One scored output row: the copied input fields, the rounded risk
score, the band of the rounded score, and the run's top-driver tag. -/
def buildOutputRow (r : Record) (s : ℚ) (td : String) : OutputRow :=
  { employee_id := r.employee_id, dept := r.dept,
    tenure_months := r.tenure_months,
    last_promotion_months := r.last_promotion_months,
    engagement_score := r.engagement_score,
    overtime_hours_month := r.overtime_hours_month,
    absenteeism_days_month := r.absenteeism_days_month,
    performance_score := r.performance_score,
    peer_turnover_rate := r.peer_turnover_rate,
    internal_mobility := r.internal_mobility,
    risk_score := round3 s,
    risk_band := infer_risk_band (round3 s),
    top_driver := td }

/-- The output-assembly tail of `run_pipeline` (lines 80-83): pair the
original (unlabeled) rows with their raw scores and attach
`risk_score = round(s, 3)`, `risk_band = _infer_risk_band(risk_score)`,
and the one global `top_driver` tag. -/
def build_output (df : DataFrame) (risk_scores : List ℚ)
    (importances : List (String × ℚ)) : List OutputRow :=
  (df.rows.zip risk_scores).map
    (fun rs => buildOutputRow rs.1 rs.2 (top_driver_summary importances))

/-- `run_pipeline` from `pipeline.py` on the CSV-input path, with the
training step (`train_model`, whose fitting is done by sklearn) passed
as a parameter: validate, prepare the training copy, train on it, score
the ORIGINAL frame, and assemble the output rows. -/
def run_pipeline (train : DataFrame → ModelResult) (raw : RawFrame) :
    Except (List String) (List OutputRow × ModelResult) :=
  match load_csv raw with
  | Except.error missing => Except.error missing
  | Except.ok df =>
    let training_df := prepare_training_data df
    let result := train training_df
    let risk_scores := score result.model df
    Except.ok (build_output df risk_scores result.feature_importance, result)

/-- Record used by the spec's first Label Synthesizer example:
engagement 50, overtime 15, absenteeism 1, months-since-promotion 10. -/
def exRecord1 : Record :=
  { employee_id := "E1", dept := "Sales", tenure_months := 24,
    last_promotion_months := 10, salary_band := "B", manager_span := 5,
    overtime_hours_month := 15, engagement_score := 50,
    absenteeism_days_month := 1, peer_turnover_rate := 1/10,
    performance_score := 70, internal_mobility := 0 }

/-- Record used by the spec's second Label Synthesizer example:
engagement 80, overtime 5, absenteeism 1, months-since-promotion 10. -/
def exRecord2 : Record :=
  { exRecord1 with overtime_hours_month := 5, engagement_score := 80 }

/-- An empty unlabeled frame, used by concrete witnesses. -/
def df0 : DataFrame := { rows := [], exit_flag := none }

/-- A trivial fitted encoder state, used by concrete witnesses. -/
def enc0 : EncoderState :=
  { numMeans := [], numStds := [], deptCats := [], salaryCats := [] }

/-- A trivial trained model (constant predictor), used by concrete
witnesses. -/
def model0 : ModelState := { enc := enc0, predict := fun _ => 1/2 }

/-- A trivial training result, used by concrete witnesses. -/
def res0 : ModelResult :=
  { model := model0, auc := 0, feature_importance := [] }

/-- A trivial training step, used by concrete witnesses. -/
def train0 : DataFrame → ModelResult := fun _ => res0

/-- A raw input whose header carries all twelve required columns. -/
def raw0 : RawFrame := { cols := REQUIRED_COLUMNS, frame := df0 }

/-- A raw input whose header is missing `engagement_score`. -/
def rawMissing : RawFrame :=
  { cols := REQUIRED_COLUMNS.erase "engagement_score", frame := df0 }

/-- Per-column weights (9 numeric columns, then `dept_HR`, then
`salary_band_A`) putting all weight on the one-hot column `dept_HR`. -/
def impsC4 : List ℚ := [0, 0, 0, 0, 0, 0, 0, 0, 0, 1, 0]

/-- Per-column weights (9 numeric columns, then one `dept` level)
putting all weight on the single one-hot column. -/
def impsC6 : List ℚ := [0, 0, 0, 0, 0, 0, 0, 0, 0, 1]

end RetentionGuard

namespace RetentionGuard

/-- C1: `_infer_risk_band` returns "High" iff the score is ≥ 0.7,
"Medium" iff it lies in [0.4, 0.7), and "Low" iff it is < 0.4; the four
boundary cases of the spec evaluate as stated. -/
theorem C1_band_thresholds :
    (∀ s : ℚ,
      (infer_risk_band s = "High" ↔ 0.7 ≤ s) ∧
      (infer_risk_band s = "Medium" ↔ 0.4 ≤ s ∧ s < 0.7) ∧
      (infer_risk_band s = "Low" ↔ s < 0.4)) ∧
    infer_risk_band 0.7 = "High" ∧
    infer_risk_band 0.6999 = "Medium" ∧
    infer_risk_band 0.4 = "Medium" ∧
    infer_risk_band 0.3999 = "Low" := by
  refine ⟨fun s => ?_, ?_, ?_, ?_, ?_⟩
  · unfold infer_risk_band
    split_ifs with h1 h2 <;>
      refine ⟨⟨fun he => ?_, fun hc => ?_⟩, ⟨fun he => ?_, fun hc => ?_⟩,
              ⟨fun he => ?_, fun hc => ?_⟩⟩ <;>
      first
        | rfl
        | (exact absurd he (by decide))
        | linarith
        | (exact ⟨by linarith, by linarith⟩)
  all_goals unfold infer_risk_band
  · rw [if_pos (by norm_num)]
  · rw [if_neg (by norm_num), if_pos (by norm_num)]
  · rw [if_neg (by norm_num), if_pos (by norm_num)]
  · rw [if_neg (by norm_num), if_neg (by norm_num)]

/-- C2: the synthesized label is a deterministic pure function of the
four signals (engagement < 60, overtime > 12, absenteeism > 3,
months-since-promotion > 36, each adding 1 to a counter), it is 1 iff
the counter reaches 2, and the two concrete spec examples evaluate as
stated. -/
theorem C2_label_synthesis :
    (∀ r : Record,
      (synth_label r = 1 ↔ 2 ≤ synth_heuristic r) ∧
      (synth_label r = 0 ↔ synth_heuristic r < 2) ∧
      synth_heuristic r =
        (if r.engagement_score < 60 then 1 else 0)
        + (if r.overtime_hours_month > 12 then 1 else 0)
        + (if r.absenteeism_days_month > 3 then 1 else 0)
        + (if r.last_promotion_months > 36 then 1 else 0) ∧
      synth_label r = synth_label r) ∧
    synth_heuristic exRecord1 = 2 ∧ synth_label exRecord1 = 1 ∧
    synth_heuristic exRecord2 = 0 ∧ synth_label exRecord2 = 0 := by
  refine ⟨fun r => ⟨?_, ?_, rfl, rfl⟩, ?_, ?_, ?_, ?_⟩
  · unfold synth_label
    split_ifs with h
    · exact ⟨fun _ => h, fun _ => rfl⟩
    · exact ⟨fun he => absurd he (by decide), fun hc => absurd hc h⟩
  · unfold synth_label
    split_ifs with h
    · exact ⟨fun he => absurd he (by decide), fun hc => absurd h (by omega)⟩
    · exact ⟨fun _ => by omega, fun _ => rfl⟩
  · unfold synth_heuristic exRecord1
    norm_num
  · unfold synth_label synth_heuristic exRecord1
    norm_num
  · unfold synth_heuristic exRecord2 exRecord1
    norm_num
  · unfold synth_label synth_heuristic exRecord2 exRecord1
    norm_num

theorem mem_oneHotFit {x : String} {l : List String} :
    x ∈ oneHotFit l ↔ x ∈ l := by
  unfold oneHotFit
  rw [List.mem_dedup, (List.perm_insertionSort _ l).mem_iff]

/-- C3: a categorical level not observed during `fit` transforms without
error to all-zero indicators for that field, adding no column: the
output has exactly one entry per fitted level, and every entry is 0. -/
theorem C3_unseen_level_neutral (training : List String) (v : String)
    (hv : v ∉ training) :
    oneHotTransform (oneHotFit training) v =
      List.replicate (oneHotFit training).length 0 ∧
    (oneHotTransform (oneHotFit training) v).length =
      (oneHotFit training).length ∧
    (∀ x ∈ oneHotTransform (oneHotFit training) v, x = 0) ∧
    (∀ c, c ∈ oneHotFit training ↔ c ∈ training) := by
  have hz : ∀ x ∈ oneHotTransform (oneHotFit training) v, x = 0 := by
    intro x hx
    rcases List.mem_map.mp hx with ⟨c, hc, hcx⟩
    have hne : v ≠ c := fun he => hv (he ▸ mem_oneHotFit.mp hc)
    rw [← hcx, if_neg hne]
  refine ⟨?_, ?_, hz, fun c => mem_oneHotFit⟩
  · exact List.eq_replicate_iff.mpr ⟨by simp [oneHotTransform], hz⟩
  · simp [oneHotTransform]

/-- Witness for C3 at a concrete vocabulary: "Legal" is absent from the
training levels ["HR", "Sales"], and its indicators are all zero. -/
theorem C3_unseen_level_neutral_witness :
    ("Legal" ∉ ["HR", "Sales"]) ∧
    oneHotTransform (oneHotFit ["HR", "Sales"]) "Legal" =
      List.replicate (oneHotFit ["HR", "Sales"]).length 0 :=
  ⟨by decide, (C3_unseen_level_neutral ["HR", "Sales"] "Legal" (by decide)).1⟩

theorem pairwise_idx_orderedInsert :
    ∀ (l : List (ℕ × String × ℚ)) (a : ℕ × String × ℚ),
      l.Pairwise (fun x y => x.2.2 = y.2.2 → x.1 < y.1) →
      (∀ b ∈ l, a.1 < b.1) →
      (l.orderedInsert impRelIdx a).Pairwise
        (fun x y => x.2.2 = y.2.2 → x.1 < y.1)
  | [], a, _, _ => by simp
  | b :: l, a, hp, ha => by
    rw [List.orderedInsert]
    by_cases hab : impRelIdx a b
    · rw [if_pos hab]
      exact List.Pairwise.cons (fun x hx _ => ha x hx) hp
    · rw [if_neg hab]
      refine List.Pairwise.cons ?_
        (pairwise_idx_orderedInsert l a hp.of_cons
          (fun x hx => ha x (List.mem_cons_of_mem b hx)))
      intro x hx
      rcases (List.mem_orderedInsert impRelIdx).mp hx with hxa | hxl
      · subst hxa
        intro he
        exact absurd he.le hab
      · exact List.rel_of_pairwise_cons hp hxl

theorem pairwise_idx_insertionSort :
    ∀ l : List (ℕ × String × ℚ),
      l.Pairwise (fun x y => x.1 < y.1) →
      (l.insertionSort impRelIdx).Pairwise
        (fun x y => x.2.2 = y.2.2 → x.1 < y.1)
  | [], _ => by simp
  | a :: l, h => by
    rw [List.insertionSort]
    exact pairwise_idx_orderedInsert _ a
      (pairwise_idx_insertionSort l h.of_cons)
      (fun b hb => List.rel_of_pairwise_cons h
        ((List.mem_insertionSort impRelIdx).mp hb))

theorem enum_pairwise_fst_lt (l : List (String × ℚ)) :
    l.enum.Pairwise (fun x y => x.1 < y.1) := by
  have h := List.pairwise_lt_range l.length
  rw [← List.enum_map_fst l, List.pairwise_map] at h
  exact h

theorem extract_eq_enum_proj (cat_names : List String) (imps : List ℚ) :
    extract_feature_importance cat_names imps =
      (extract_fi_enum cat_names imps).map Prod.snd := by
  unfold extract_feature_importance extract_fi_enum
  rw [List.map_take]
  congr 1
  rw [List.map_insertionSort impRelIdx impRel Prod.snd _
        (fun a _ b _ => Iff.rfl),
      List.enum_map_snd]

theorem extract_sorted (cat_names : List String) (imps : List ℚ) :
    (extract_feature_importance cat_names imps).Pairwise impRel := by
  unfold extract_feature_importance
  exact List.Pairwise.sublist (List.take_sublist 8 _)
    (List.sorted_insertionSort impRel _)

theorem mem_zip_of_mem_extract {cat_names : List String} {imps : List ℚ}
    {p : String × ℚ} (hp : p ∈ extract_feature_importance cat_names imps) :
    p ∈ (num_features ++ cat_names).zip imps := by
  unfold extract_feature_importance at hp
  exact (List.perm_insertionSort impRel _).mem_iff.mp
    (List.mem_of_mem_take hp)

/-- C5: the Feature Importance Table has at most 8 entries, its weights
are non-negative (granted non-negative per-column weights, which the
random forest guarantees) and non-increasing, and entries of equal
weight appear in first-encountered encoded-column order: the table is
the index-decorated sort projected back, and in that sort equal weights
have strictly increasing original column indices. -/
theorem C5_importance_table (cat_names : List String) (imps : List ℚ)
    (h : ∀ w ∈ imps, (0:ℚ) ≤ w) :
    (extract_feature_importance cat_names imps).length ≤ 8 ∧
    (extract_feature_importance cat_names imps).Pairwise
      (fun a b => b.2 ≤ a.2) ∧
    (∀ p ∈ extract_feature_importance cat_names imps, 0 ≤ p.2) ∧
    extract_feature_importance cat_names imps =
      (extract_fi_enum cat_names imps).map Prod.snd ∧
    (extract_fi_enum cat_names imps).Pairwise
      (fun a b => a.2.2 = b.2.2 → a.1 < b.1) := by
  refine ⟨?_, extract_sorted cat_names imps,
    fun p hp => h p.2 (List.of_mem_zip (mem_zip_of_mem_extract hp)).2,
    extract_eq_enum_proj cat_names imps, ?_⟩
  · unfold extract_feature_importance
    exact List.length_take_le 8 _
  · unfold extract_fi_enum
    exact List.Pairwise.sublist (List.take_sublist 8 _)
      (pairwise_idx_insertionSort _ (enum_pairwise_fst_lt _))

/-- Witness for C5 at a concrete weight vector: all weights are
non-negative and the table the run builds from them has at most 8
entries. -/
theorem C5_importance_table_witness :
    (∀ w ∈ impsC6, (0:ℚ) ≤ w) ∧
    (extract_feature_importance ["dept_HR"] impsC6).length ≤ 8 :=
  ⟨by decide, (C5_importance_table ["dept_HR"] impsC6 (by decide)).1⟩

/-- Counterexample to C4 as stated: with `dept` vocabulary ["HR"],
`salary_band` vocabulary ["A"], and all weight on the `dept_HR` one-hot
column, the table's top key is the expanded name "dept_HR", which is not
one of the twelve original input field names — one-hot columns are NOT
mapped back to their original field. -/
theorem C4_keys_counterexample :
    ("dept_HR" ∈
      (extract_feature_importance (cat_names_of ["HR"] ["A"]) impsC4).map
        Prod.fst) ∧
    "dept_HR" ∉ REQUIRED_COLUMNS := by decide

/-- C4 (amended): every key of the Feature Importance Table is an
ENCODED column name — a numeric field name, or the expanded
`field_level` name of a one-hot column; expanded categorical columns are
reported under their expanded names, not under the original field
name. -/
theorem C4_keys_are_encoded_names (deptCats salaryCats : List String)
    (imps : List ℚ) :
    ∀ k ∈ (extract_feature_importance (cat_names_of deptCats salaryCats)
            imps).map Prod.fst,
      k ∈ num_features ∨ (∃ c ∈ deptCats, k = "dept_" ++ c) ∨
        (∃ c ∈ salaryCats, k = "salary_band_" ++ c) := by
  intro k hk
  rcases List.mem_map.mp hk with ⟨p, hp, hpk⟩
  have hmem : p.1 ∈ num_features ++ cat_names_of deptCats salaryCats :=
    (List.of_mem_zip (mem_zip_of_mem_extract hp)).1
  rw [← hpk]
  rcases List.mem_append.mp hmem with hnum | hcat
  · exact Or.inl hnum
  · rcases List.mem_append.mp hcat with hd | hs
    · rcases List.mem_map.mp hd with ⟨c, hc, hcn⟩
      exact Or.inr (Or.inl ⟨c, hc, hcn.symm⟩)
    · rcases List.mem_map.mp hs with ⟨c, hc, hcn⟩
      exact Or.inr (Or.inr ⟨c, hc, hcn.symm⟩)

/-- Witness for C4 (amended) at a concrete table: the key "dept_HR" is
the expanded name of the `dept` level "HR". -/
theorem C4_keys_are_encoded_names_witness :
    ("dept_HR" ∈
      (extract_feature_importance (cat_names_of ["HR"] ["A"]) impsC4).map
        Prod.fst) ∧
    ("dept_HR" ∈ num_features ∨ (∃ c ∈ ["HR"], "dept_HR" = "dept_" ++ c) ∨
      (∃ c ∈ ["A"], "dept_HR" = "salary_band_" ++ c)) :=
  ⟨by decide,
   C4_keys_are_encoded_names ["HR"] ["A"] impsC4 "dept_HR" (by decide)⟩

theorem isPrefixB_iff : ∀ p l : List Char, isPrefixB p l = true ↔ p <+: l
  | [], l => by simp [isPrefixB]
  | a :: as, [] => by simp [isPrefixB]
  | a :: as, b :: bs => by
    simp [isPrefixB, List.cons_prefix_cons, isPrefixB_iff as bs]

theorem stripTokenAux_no_occurrence (pat : List Char) :
    ∀ (fuel : ℕ) (s : List Char), ¬ (pat <:+: s) →
      stripTokenAux pat fuel s = s
  | 0, _, _ => rfl
  | _ + 1, [], _ => rfl
  | fuel + 1, c :: rest, h => by
    have hpre : ¬ (isPrefixB pat (c :: rest) = true) := fun hb =>
      h (((isPrefixB_iff pat (c :: rest)).mp hb).isInfix)
    rw [stripTokenAux, if_neg hpre,
      stripTokenAux_no_occurrence pat fuel rest
        (fun hr => h (List.infix_cons hr))]

theorem replaceEmpty_no_occurrence (s pat : String)
    (h : ¬ (pat.data <:+: s.data)) : replaceEmpty s pat = s := by
  unfold replaceEmpty
  rw [stripTokenAux_no_occurrence pat.data s.data.length s.data h]

theorem foldl_first_max (p : String × ℚ) :
    ∀ rest : List (String × ℚ), (∀ q ∈ rest, q.2 ≤ p.2) →
      rest.foldl (fun acc q => if acc.2 < q.2 then q else acc) p = p
  | [], _ => rfl
  | q :: rest, h => by
    rw [List.foldl_cons,
      if_neg (not_lt.mpr (h q (List.mem_cons_self q rest)))]
    exact foldl_first_max p rest
      (fun x hx => h x (List.mem_cons_of_mem q hx))

/-- Counterexample to C6 as stated: when the `dept` vocabulary contains
the (legal, if exotic) level "cat__X" and its one-hot column tops the
importance table, `_top_driver_summary`'s substring stripping turns the
top key "dept_cat__X" into "dept_X", so the attached tag is NOT the key
of the highest-weight entry — in fact not a key of the table at all. -/
theorem C6_top_driver_counterexample :
    top_driver_summary
        (extract_feature_importance (cat_names_of ["cat__X"] []) impsC6)
      = "dept_X" ∧
    (extract_feature_importance (cat_names_of ["cat__X"] []) impsC6).headI
      = ("dept_cat__X", 1) ∧
    "dept_X" ∉
      (extract_feature_importance (cat_names_of ["cat__X"] []) impsC6).map
        Prod.fst := by decide

/-- C6 (amended): the head of the (descending-sorted) Feature Importance
Table is its first highest-weight entry; the top-driver tag is that
entry's key with the substrings "cat__" and "num__" removed — equal to
the key itself whenever no key contains those substrings (true of every
name built from sane field and level names) — and every Scored Record of
one run carries that same single tag. -/
theorem C6_top_driver_global (cat_names : List String) (imps : List ℚ)
    (hne : extract_feature_importance cat_names imps ≠ []) :
    ((extract_feature_importance cat_names imps).headI ∈
      extract_feature_importance cat_names imps) ∧
    (∀ p ∈ extract_feature_importance cat_names imps,
      p.2 ≤ (extract_feature_importance cat_names imps).headI.2) ∧
    top_driver_summary (extract_feature_importance cat_names imps) =
      replaceEmpty
        (replaceEmpty
          (extract_feature_importance cat_names imps).headI.1 "cat__")
        "num__" ∧
    ((∀ p ∈ extract_feature_importance cat_names imps, cleanKey p.1) →
      top_driver_summary (extract_feature_importance cat_names imps) =
        (extract_feature_importance cat_names imps).headI.1) ∧
    (∀ df scores o,
      o ∈ build_output df scores (extract_feature_importance cat_names imps) →
      o.top_driver =
        top_driver_summary (extract_feature_importance cat_names imps)) ∧
    (∀ df scores o₁ o₂,
      o₁ ∈ build_output df scores (extract_feature_importance cat_names imps) →
      o₂ ∈ build_output df scores (extract_feature_importance cat_names imps) →
      o₁.top_driver = o₂.top_driver) := by
  have hout : ∀ df scores o,
      o ∈ build_output df scores (extract_feature_importance cat_names imps) →
      o.top_driver =
        top_driver_summary (extract_feature_importance cat_names imps) := by
    intro df scores o ho
    rcases List.mem_map.mp ho with ⟨rs, _, hrs⟩
    rw [← hrs]
    rfl
  obtain ⟨h0, rest, hT⟩ :
      ∃ h0 rest, extract_feature_importance cat_names imps = h0 :: rest := by
    cases hE : extract_feature_importance cat_names imps with
    | nil => exact absurd hE hne
    | cons a l => exact ⟨a, l, rfl⟩
  have hsort := extract_sorted cat_names imps
  rw [hT] at hsort
  have hmax : ∀ q ∈ rest, q.2 ≤ h0.2 := fun q hq =>
    List.rel_of_pairwise_cons hsort hq
  have htop :
      top_driver_summary (extract_feature_importance cat_names imps) =
        replaceEmpty (replaceEmpty h0.1 "cat__") "num__" := by
    rw [hT]
    show replaceEmpty
        (replaceEmpty
          (rest.foldl (fun acc q => if acc.2 < q.2 then q else acc) h0).1
          "cat__")
        "num__" = _
    rw [foldl_first_max h0 rest hmax]
  refine ⟨?_, ?_, ?_, ?_, hout, ?_⟩
  · rw [hT]
    exact List.mem_cons_self h0 rest
  · intro p hp
    rw [hT] at hp ⊢
    rcases List.mem_cons.mp hp with rfl | hpr
    · exact le_rfl
    · exact hmax p hpr
  · rw [htop, hT]
    rfl
  · intro hclean
    have hc : cleanKey h0.1 := by
      refine hclean h0 ?_
      rw [hT]
      exact List.mem_cons_self h0 rest
    rw [htop, replaceEmpty_no_occurrence _ _ hc.1,
      replaceEmpty_no_occurrence _ _ hc.2, hT]
    rfl
  · intro df scores o₁ o₂ h1 h2
    rw [hout df scores o₁ h1, hout df scores o₂ h2]

/-- Witness for C6 (amended) at a concrete clean run: the table built
from `dept` vocabulary ["HR"] is nonempty and its head is a member. -/
theorem C6_top_driver_global_witness :
    (extract_feature_importance (cat_names_of ["HR"] []) impsC6 ≠ []) ∧
    ((extract_feature_importance (cat_names_of ["HR"] []) impsC6).headI ∈
      extract_feature_importance (cat_names_of ["HR"] []) impsC6) :=
  ⟨by decide,
   (C6_top_driver_global (cat_names_of ["HR"] []) impsC6 (by decide)).1⟩

theorem mem_infix_joinComma :
    ∀ (l : List String) (c : String), c ∈ l →
      c.data <:+: (joinComma l).data
  | [], c, h => absurd h (List.not_mem_nil c)
  | [s], c, h => by
    rcases List.mem_singleton.mp h with rfl
    exact List.infix_refl _
  | s :: s' :: rest, c, h => by
    show c.data <:+: ((s ++ ", ") ++ joinComma (s' :: rest)).data
    rw [String.data_append]
    rcases List.mem_cons.mp h with rfl | h'
    · rw [String.data_append]
      exact ((List.prefix_append c.data _).trans
        (List.prefix_append _ _)).isInfix
    · exact (mem_infix_joinComma (s' :: rest) c h').trans
        (List.suffix_append _ _).isInfix

theorem mem_infix_missing_message {missing : List String} {c : String}
    (h : c ∈ missing) :
    c.data <:+: (missing_message missing).data := by
  unfold missing_message
  rw [String.data_append]
  exact (mem_infix_joinComma missing c h).trans
    (List.suffix_append _ _).isInfix

theorem mem_missing_columns {raw : RawFrame} {c : String} :
    c ∈ missing_columns raw ↔ (c ∈ REQUIRED_COLUMNS ∧ c ∉ raw.cols) := by
  simp [missing_columns, List.mem_filter]

/-- C7: validation succeeds iff all twelve required columns are present;
when a required column is absent the run fails with the full list of
missing columns — each one named in the error message — and the failure
is independent of the training step, which is never reached. -/
theorem C7_schema_validation (raw : RawFrame) :
    ((∃ df, load_csv raw = Except.ok df) ↔
      ∀ c ∈ REQUIRED_COLUMNS, c ∈ raw.cols) ∧
    (∀ c, c ∈ REQUIRED_COLUMNS → c ∉ raw.cols →
      ∃ missing, missing ≠ [] ∧ load_csv raw = Except.error missing ∧
        c ∈ missing ∧
        (∀ c', c' ∈ missing ↔ (c' ∈ REQUIRED_COLUMNS ∧ c' ∉ raw.cols)) ∧
        c.data <:+: (missing_message missing).data ∧
        (∀ train : DataFrame → ModelResult,
          run_pipeline train raw = Except.error missing)) := by
  constructor
  · constructor
    · rintro ⟨df, hdf⟩ c hc
      by_contra hnc
      have hcm : c ∈ missing_columns raw := mem_missing_columns.mpr ⟨hc, hnc⟩
      have hemp : (missing_columns raw).isEmpty = true := by
        by_contra hne2
        unfold load_csv at hdf
        rw [if_neg hne2] at hdf
        exact absurd hdf (by simp)
      rw [List.isEmpty_iff] at hemp
      rw [hemp] at hcm
      exact absurd hcm (List.not_mem_nil c)
    · intro hall
      have hemp : (missing_columns raw).isEmpty = true := by
        rw [List.isEmpty_iff]
        unfold missing_columns
        rw [List.filter_eq_nil_iff]
        intro a ha
        simp [hall a ha]
      unfold load_csv
      rw [if_pos hemp]
      exact ⟨raw.frame, rfl⟩
  · intro c hc hnc
    have hcm : c ∈ missing_columns raw := mem_missing_columns.mpr ⟨hc, hnc⟩
    have hne : missing_columns raw ≠ [] := fun he => by
      rw [he] at hcm
      exact absurd hcm (List.not_mem_nil c)
    have hemp : ¬ ((missing_columns raw).isEmpty = true) := by
      rw [List.isEmpty_iff]
      exact hne
    have hload : load_csv raw = Except.error (missing_columns raw) := by
      unfold load_csv
      rw [if_neg hemp]
    refine ⟨missing_columns raw, hne, hload, hcm,
      fun c' => mem_missing_columns, mem_infix_missing_message hcm, ?_⟩
    intro train
    unfold run_pipeline
    rw [hload]

/-- Witness for C7: a header missing exactly `engagement_score` fails
validation with an error naming that column, whatever the training
step. -/
theorem C7_schema_validation_witness :
    ("engagement_score" ∈ REQUIRED_COLUMNS ∧
      "engagement_score" ∉ rawMissing.cols) ∧
    (∃ missing, missing ≠ [] ∧
      load_csv rawMissing = Except.error missing ∧
      "engagement_score" ∈ missing ∧
      (∀ c', c' ∈ missing ↔
        (c' ∈ REQUIRED_COLUMNS ∧ c' ∉ rawMissing.cols)) ∧
      "engagement_score".data <:+: (missing_message missing).data ∧
      (∀ train : DataFrame → ModelResult,
        run_pipeline train rawMissing = Except.error missing)) :=
  ⟨⟨by decide, by decide⟩,
   (C7_schema_validation rawMissing).2 "engagement_score"
     (by decide) (by decide)⟩

/-- C8: when the input already carries `exit_flag`, label preparation
returns it unchanged (no synthesis); when it does not, the training copy
gets the synthesized column while keeping the same rows; and inside
`run_pipeline` the trained result comes from the prepared copy while
scoring and the output rows are built from the ORIGINAL frame, to which
no label column is ever added. -/
theorem C8_label_frame_effects :
    (∀ (df : DataFrame) (l : List ℤ), df.exit_flag = some l →
      prepare_training_data df = df) ∧
    (∀ df : DataFrame, df.exit_flag = none →
      (prepare_training_data df).rows = df.rows ∧
      (prepare_training_data df).exit_flag =
        some (df.rows.map synth_label)) ∧
    (∀ (train : DataFrame → ModelResult) (raw : RawFrame)
        (out : List OutputRow) (res : ModelResult),
      run_pipeline train raw = Except.ok (out, res) →
      res = train (prepare_training_data raw.frame) ∧
      out = build_output raw.frame (score res.model raw.frame)
        res.feature_importance) := by
  refine ⟨?_, ?_, ?_⟩
  · intro df l hl
    unfold prepare_training_data
    rw [hl]
  · intro df hn
    unfold prepare_training_data
    rw [hn]
    exact ⟨rfl, rfl⟩
  · intro train raw out res hrun
    unfold run_pipeline at hrun
    have hload : load_csv raw = Except.ok raw.frame ∨
        ∃ m, load_csv raw = Except.error m := by
      unfold load_csv
      split_ifs
      · exact Or.inl rfl
      · exact Or.inr ⟨_, rfl⟩
    rcases hload with hload | ⟨m, hload⟩
    · rw [hload] at hrun
      have h1 := (Except.ok.injEq _ _).mp hrun
      injection h1 with ha hb
      subst ha
      subst hb
      exact ⟨rfl, rfl⟩
    · rw [hload] at hrun
      exact absurd hrun (by simp)

/-- Witness for C8: on an empty unlabeled frame, preparation synthesizes
the (empty) label column, the run succeeds, and its result is the
training step applied to the prepared copy. -/
theorem C8_label_frame_effects_witness :
    (df0.exit_flag = none ∧
      (prepare_training_data df0).exit_flag =
        some (df0.rows.map synth_label)) ∧
    (run_pipeline train0 raw0 = Except.ok ([], res0) ∧
      res0 = train0 (prepare_training_data raw0.frame)) := by
  have h := C8_label_frame_effects
  refine ⟨⟨rfl, (h.2.1 df0 rfl).2⟩, rfl, (h.2.2 train0 raw0 [] res0 rfl).1⟩

/-- C9: scoring is a deterministic pure function of the trained model
and the record collection — the same collection scored twice through the
same model yields identical risk scores — and produces one score per
input row. -/
theorem C9_scoring_deterministic (model : ModelState) (df : DataFrame) :
    score model df = score model df ∧
    (score model df).length = df.rows.length :=
  ⟨rfl, by simp [score]⟩

theorem roundHalfEven_odd_half_up (x : ℚ) (n : ℤ) (hf : ⌊x⌋ = n)
    (hhalf : (1/2 : ℚ) ≤ x - (n : ℚ)) (hodd : n % 2 = 1) :
    roundHalfEven x = n + 1 := by
  unfold roundHalfEven
  rw [hf, if_neg (not_lt.mpr hhalf)]
  by_cases hlt : (1/2 : ℚ) < x - (n : ℚ)
  · rw [if_pos hlt]
  · rw [if_neg hlt, if_neg (by omega)]

/-- C10: the risk score written by `run_pipeline` is the raw probability
rounded (half to even, numpy's rule) to 3 decimals and the band is
computed from the ROUNDED value; consequently raw probabilities in
[0.6995, 0.7) are banded High and raw probabilities in [0.3995, 0.4)
are banded Medium, although banding the raw value would give the lower
band. -/
theorem C10_band_of_rounded :
    (∀ (df : DataFrame) (scores : List ℚ)
        (imp : List (String × ℚ)), scores.length = df.rows.length →
      (build_output df scores imp).map OutputRow.risk_score =
        scores.map round3 ∧
      (build_output df scores imp).map OutputRow.risk_band =
        scores.map (fun s => infer_risk_band (round3 s))) ∧
    (∀ p : ℚ, 0.6995 ≤ p → p < 0.7 →
      infer_risk_band (round3 p) = "High" ∧
      infer_risk_band p = "Medium") ∧
    (∀ p : ℚ, 0.3995 ≤ p → p < 0.4 →
      infer_risk_band (round3 p) = "Medium" ∧
      infer_risk_band p = "Low") := by
  refine ⟨?_, ?_, ?_⟩
  · intro df scores imp hlen
    have hsnd : (df.rows.zip scores).map Prod.snd = scores :=
      List.map_snd_zip df.rows scores (le_of_eq hlen)
    constructor
    · calc (build_output df scores imp).map OutputRow.risk_score
          = (df.rows.zip scores).map (fun rs => round3 rs.2) := by
            simp [build_output, buildOutputRow, List.map_map,
              Function.comp]
        _ = ((df.rows.zip scores).map Prod.snd).map round3 := by
            rw [List.map_map]
            rfl
        _ = scores.map round3 := by rw [hsnd]
    · calc (build_output df scores imp).map OutputRow.risk_band
          = (df.rows.zip scores).map
              (fun rs => infer_risk_band (round3 rs.2)) := by
            simp [build_output, buildOutputRow, List.map_map,
              Function.comp]
        _ = ((df.rows.zip scores).map Prod.snd).map
              (fun s => infer_risk_band (round3 s)) := by
            rw [List.map_map]
            rfl
        _ = scores.map (fun s => infer_risk_band (round3 s)) := by
            rw [hsnd]
  · intro p h1 h2
    have hf : ⌊1000 * p⌋ = 699 := by
      rw [Int.floor_eq_iff]
      push_cast
      constructor <;> linarith
    have hr : roundHalfEven (1000 * p) = 700 :=
      roundHalfEven_odd_half_up (1000 * p) 699 hf
        (by push_cast; linarith) (by decide)
    constructor
    · unfold round3 infer_risk_band
      rw [hr, if_pos (by push_cast; norm_num)]
    · unfold infer_risk_band
      rw [if_neg (not_le.mpr h2), if_pos (by linarith)]
  · intro p h1 h2
    have hf : ⌊1000 * p⌋ = 399 := by
      rw [Int.floor_eq_iff]
      push_cast
      constructor <;> linarith
    have hr : roundHalfEven (1000 * p) = 400 :=
      roundHalfEven_odd_half_up (1000 * p) 399 hf
        (by push_cast; linarith) (by decide)
    constructor
    · unfold round3 infer_risk_band
      rw [hr, if_neg (by push_cast; norm_num),
        if_pos (by push_cast; norm_num)]
    · unfold infer_risk_band
      rw [if_neg (by linarith), if_neg (not_le.mpr h2)]

/-- Witness for C10 at the boundary values 0.6995 and 0.3995 (and on a
concrete frame for the structural part). -/
theorem C10_band_of_rounded_witness :
    ((0.6995 : ℚ) ≤ 0.6995 ∧ (0.6995 : ℚ) < 0.7 ∧
      infer_risk_band (round3 0.6995) = "High" ∧
      infer_risk_band 0.6995 = "Medium") ∧
    ((0.3995 : ℚ) ≤ 0.3995 ∧ (0.3995 : ℚ) < 0.4 ∧
      infer_risk_band (round3 0.3995) = "Medium" ∧
      infer_risk_band 0.3995 = "Low") ∧
    (([] : List ℚ).length = df0.rows.length ∧
      (build_output df0 [] []).map OutputRow.risk_score =
        ([] : List ℚ).map round3) := by
  have h := C10_band_of_rounded
  refine ⟨⟨by norm_num, by norm_num, ?_, ?_⟩,
          ⟨by norm_num, by norm_num, ?_, ?_⟩, rfl, ?_⟩
  · exact (h.2.1 0.6995 (by norm_num) (by norm_num)).1
  · exact (h.2.1 0.6995 (by norm_num) (by norm_num)).2
  · exact (h.2.2 0.3995 (by norm_num) (by norm_num)).1
  · exact (h.2.2 0.3995 (by norm_num) (by norm_num)).2
  · exact (h.1 df0 [] [] rfl).1

end RetentionGuard
